import Mathlib

/-!
Verification of the NCBI-Database-MCP online BLAST client.

This file gives a shallow embedding of the retry / submit / poll / fetch
logic of the stable online BLAST server (class StableOnlineBlastServer)
and of the plain online server (class OnlineBlastServer), and proves the
spec's testable properties about it.  Network transports are passed in as
explicit parameters (a record of outcomes); a thrown JavaScript error is
an Except.error, a returned string is an Except.ok.
-/

namespace NCBIBlast

/-- JavaScript regular-expression class backslash-s: the set of characters
removed by the second replace in cleanQuery. -/
def isJsWhitespace (c : Char) : Bool :=
  let n := c.toNat
  n == 9 || n == 10 || n == 11 || n == 12 || n == 13 || n == 32 ||
  n == 0xa0 || n == 0x1680 || (0x2000 ≤ n && n ≤ 0x200a) ||
  n == 0x2028 || n == 0x2029 || n == 0x202f || n == 0x205f ||
  n == 0x3000 || n == 0xfeff

/-- JavaScript line terminators: the boundaries at which a multiline-mode
anchor of a regular expression matches. -/
def isLineTerm (c : Char) : Bool :=
  let n := c.toNat
  n == 10 || n == 13 || n == 0x2028 || n == 0x2029

/-- Split a character list at line terminators (the terminators are dropped;
they are whitespace and would be removed afterwards anyway). -/
def splitLinesAux : List Char → List Char → List (List Char)
  | [], acc => [acc.reverse]
  | c :: rest, acc =>
    if isLineTerm c then acc.reverse :: splitLinesAux rest []
    else splitLinesAux rest (c :: acc)

/-- Effect of the two replace calls on one line: a line whose first character
is a FASTA header marker loses its whole content, any other line loses its
whitespace characters. -/
def cleanLine (l : List Char) : List Char :=
  match l with
  | '>' :: _ => []
  | _ => l.filter (fun c => !(isJsWhitespace c))

/-- Embeds the query cleaning of runOnlineBlast:
query.replace of FASTA header lines by nothing, then removal of every
whitespace character. -/
def cleanQuery (query : String) : String :=
  String.mk (((splitLinesAux query.data []).map cleanLine).flatten)

/-- Helper for substring containment: does pat occur (contiguously) in the
list?  Mirrors JavaScript String.prototype.includes. -/
def occursAux (pat : List Char) : List Char → Bool
  | [] => pat.isEmpty
  | c :: rest => List.isPrefixOf pat (c :: rest) || occursAux pat rest

/-- JavaScript s.includes(pat). -/
def containsSubstr (s pat : String) : Bool :=
  occursAux pat.data s.data

/-- Job status as driven by polling responses (spec data model). -/
inductive JobStatus where
  | Pending
  | Ready
  | Failed
deriving DecidableEq, Repr, BEq

/-- Embeds the status detection of the poll loop body: checkText.includes
of the READY marker first, else of the FAILED marker, else keep waiting. -/
def pollClassify (checkText : String) : JobStatus :=
  if containsSubstr checkText "Status=READY" then JobStatus.Ready
  else if containsSubstr checkText "Status=FAILED" then JobStatus.Failed
  else JobStatus.Pending

/-! Messages of the stable online server, verbatim from the source. -/

def tooShortMsg : String := "❌ Query too short. Minimum 10 characters required."

def tooLongMsg : String := "❌ Query too long. Maximum 2000 characters for online BLAST."

def jobFailedMsg : String := "BLAST job failed on server"

def timedOutMsg : String := "BLAST job timed out"

def noRidMsg : String := "Failed to get RID from NCBI response"

def invalidFormatMsg : String := "❌ Invalid result format from NCBI"

/-- maxRetries of runOnlineBlastWithRetry. -/
def maxRetries : Nat := 3

def finalErrorPre : String :=
  "❌ BLAST search failed after " ++ toString maxRetries ++ " attempts.\n\nLast error: "

def finalErrorSuf : String :=
  "\n\n🔧 Troubleshooting suggestions:\n1. Check internet connection\n2. Try again in a few minutes (NCBI may be busy)\n3. Use demo_blast tool to test functionality\n4. Consider shorter sequences (< 1000 characters)\n\n💡 Alternative: Use demo_blast tool with sample sequences for testing."

/-- The aggregate message returned after all attempts failed, with the last
error message interpolated. -/
def mkFinalError (lastMsg : String) : String :=
  finalErrorPre ++ lastMsg ++ finalErrorSuf

/-! Shape of the parsed JSON2 result payload, restricted to the fields the
formatters read.  A JSON field that may be absent is an Option. -/

/-- One high-scoring segment pair.  evalue and bit_score are carried as the
opaque printed values the formatter interpolates. -/
structure Hsp where
  identity : Nat
  align_len : Nat
  evalue : String
  bit_score : String
  query_from : Nat
  query_to : Nat
deriving DecidableEq, Repr

structure HitDescription where
  accession : Option String
  title : Option String
deriving DecidableEq, Repr

structure Hit where
  description : List HitDescription
  hsps : List Hsp
deriving DecidableEq, Repr

structure BlastSearch where
  hits : Option (List Hit)
  query_len : Nat
deriving DecidableEq, Repr

structure BlastResults where
  search : Option BlastSearch
deriving DecidableEq, Repr

structure BlastReport where
  results : Option BlastResults
deriving DecidableEq, Repr

structure BlastOutputEntry where
  report : Option BlastReport
deriving DecidableEq, Repr

structure BlastData where
  BlastOutput2 : List BlastOutputEntry
deriving DecidableEq, Repr

/-- hit.description index 0 accession, with the JavaScript or-else giving
the placeholder when the field is absent or the empty string (falsy). -/
def accessionOf (h : Hit) : String :=
  match h.description.head? with
  | some d =>
    match d.accession with
    | some a => if a = "" then "N/A" else a
    | none => "N/A"
  | none => "N/A"

/-- hit.description index 0 title with the same or-else. -/
def titleOf (h : Hit) : String :=
  match h.description.head? with
  | some d =>
    match d.title with
    | some t => if t = "" then "N/A" else t
    | none => "N/A"
  | none => "N/A"

/-- The three per-hit values the stable formatter prints for each emitted
entry: an identifier, the significance value and the score. -/
structure FormattedHit where
  id : String
  evalue : String
  score : String
deriving DecidableEq, Repr

def mkEntry (h : Hit) (hsp : Hsp) : FormattedHit :=
  ⟨accessionOf h, hsp.evalue, hsp.bit_score⟩

/-- Entries emitted by the stable server formatter: search.hits.slice of the
first 5, each rendered only when it has a first hsp. -/
def formatEntriesStable (hits : List Hit) : List FormattedHit :=
  (hits.take 5).filterMap (fun h => (h.hsps.head?).map (fun hsp => mkEntry h hsp))

/-- Entries emitted by the plain online server formatter: slice of the first
10, each rendered only when it has a first hsp. -/
def formatEntriesOnline (hits : List Hit) : List FormattedHit :=
  (hits.take 10).filterMap (fun h => (h.hsps.head?).map (fun hsp => mkEntry h hsp))

/-- Math.round of (num over den) times 100, over exact rationals (the source
computes it in floating point; the claims do not depend on this value). -/
def roundPct (num den : Nat) : Nat := (200 * num + den) / (2 * den)

/-- One rendered hit block of the stable formatter (the numbering comes from
the slice index, a hit without hsps produces nothing but consumes a number). -/
def renderHitBlock (i : Nat) (h : Hit) : String :=
  match h.hsps.head? with
  | none => ""
  | some hsp =>
    "Hit " ++ toString (i + 1) ++ ":\n" ++
    "  ID: " ++ accessionOf h ++ "\n" ++
    "  Title: " ++ (titleOf h).take 80 ++ "...\n" ++
    "  Identity: " ++ toString (roundPct hsp.identity hsp.align_len) ++ "%\n" ++
    "  E-value: " ++ hsp.evalue ++ "\n" ++
    "  Score: " ++ hsp.bit_score ++ "\n\n"

def noHitsMsgStable (program database : String) : String :=
  "✅ BLAST " ++ program.toUpper ++ " completed - No significant hits found in " ++ database

/-- Embeds formatBlastResults of the stable server.  The optional-chaining
guards become Option matches; the surrounding try-catch is unreachable here
because every step is total. -/
def formatBlastResults (program database : String) (data : BlastData) : String :=
  match data.BlastOutput2.head? with
  | none => invalidFormatMsg
  | some entry =>
    match entry.report with
    | none => invalidFormatMsg
    | some report =>
      match report.results with
      | none => noHitsMsgStable program database
      | some results =>
        match results.search with
        | none => noHitsMsgStable program database
        | some search =>
          match search.hits with
          | none => noHitsMsgStable program database
          | some hits =>
            if hits.length = 0 then noHitsMsgStable program database
            else
              "✅ BLAST " ++ program.toUpper ++ " Results (" ++ database ++ ")\n" ++
              String.mk (List.replicate 40 '=') ++ "\n\n" ++
              String.join ((hits.take 5).enum.map (fun p => renderHitBlock p.1 p.2))

/-! RID extraction: submitText.match of the pattern RID-space-equals-space
followed by one or more characters in the class A to Z or 0 to 9, leftmost
match with a nonempty run. -/

def isRidChar (c : Char) : Bool :=
  ('A' ≤ c && c ≤ 'Z') || ('0' ≤ c && c ≤ '9')

def ridMarker : List Char := "RID = ".data

def extractRidAux : List Char → Option (List Char)
  | [] => none
  | c :: rest =>
    if List.isPrefixOf ridMarker (c :: rest) then
      let run := ((c :: rest).drop ridMarker.length).takeWhile isRidChar
      if run.isEmpty then extractRidAux rest else some run
    else extractRidAux rest

def extractRid (s : String) : Option String :=
  (extractRidAux s.data).map String.mk

/-! The transport: the black-box outcomes of the HTTP calls a run would
make.  An Except.error is a thrown network error. -/

/-- Response of the submission POST. -/
structure SubmitResponse where
  ok : Bool
  status : Nat
  statusText : String
  text : String

/-- Response of the final result GET, with the parsed JSON body. -/
structure ResultResponse where
  ok : Bool
  status : Nat
  data : BlastData

structure Transport where
  submit : Except String SubmitResponse
  check : Nat → Except String String
  checkDur : Nat → Nat
  result : Except String ResultResponse

def httpErrMsg (status : Nat) (statusText : String) : String :=
  "HTTP " ++ toString status ++ ": " ++ statusText

def fetchFailMsg (status : Nat) : String :=
  "Failed to fetch results: " ++ toString status

/-- Trace of the poll loop: how it ended (ok means a break on READY, or a
normal exit of the while condition), the bodies received, the number of
check requests issued, and the elapsed time in the loop (fixed 5000 ms
sleep plus the duration of each check fetch). -/
structure PollOut where
  outcome : Except String Unit
  bodies : List String
  count : Nat
  elapsedMs : Nat
deriving Repr

/-- Embeds the poll loop of the stable server: while attempts lower than 20,
sleep 5000 ms, increment attempts, fetch the status page; break on READY,
throw on FAILED, throw the timeout once attempts reaches 20.  fuel is the
number of remaining iterations (20 minus attempts at the top call). -/
def pollLoopFuel (check : Nat → Except String String) (dur : Nat → Nat) :
    Nat → Nat → PollOut
  | 0, _ => ⟨Except.ok (), [], 0, 0⟩
  | fuel + 1, attempts =>
    let a := attempts + 1
    let step := 5000 + dur a
    match check a with
    | Except.error e => ⟨Except.error e, [], 1, step⟩
    | Except.ok body =>
      match pollClassify body with
      | JobStatus.Ready => ⟨Except.ok (), [body], 1, step⟩
      | JobStatus.Failed => ⟨Except.error jobFailedMsg, [body], 1, step⟩
      | JobStatus.Pending =>
        if a ≥ 20 then ⟨Except.error timedOutMsg, [body], 1, step⟩
        else
          let rest := pollLoopFuel check dur fuel a
          ⟨rest.outcome, body :: rest.bodies, rest.count + 1, step + rest.elapsedMs⟩

def pollLoop (check : Nat → Except String String) (dur : Nat → Nat) : PollOut :=
  pollLoopFuel check dur 20 0

/-- Arguments of the blast_online tool. -/
structure BlastArgs where
  query : String
  program : String
  database : Option String
  max_hits : Nat

/-- Destructuring default: database falls back on nt for blastn, nr else. -/
def dbOf (args : BlastArgs) : String :=
  match args.database with
  | some d => d
  | none => if args.program = "blastn" then "nt" else "nr"

/-- Result of one runOnlineBlast call: the returned string or the thrown
error, with the trace data the claims are about. -/
structure RunResult where
  outcome : Except String String
  networkCalls : Nat
  pollBodies : List String
  pollCount : Nat
  pollElapsedMs : Nat
deriving Repr

/-- Embeds runOnlineBlast of the stable server: clean and validate the
query, submit, extract the RID, poll, fetch and format the result. -/
def runOnlineBlast (args : BlastArgs) (t : Transport) : RunResult :=
  let cleanQ := cleanQuery args.query
  if cleanQ.length < 10 then ⟨Except.ok tooShortMsg, 0, [], 0, 0⟩
  else if cleanQ.length > 2000 then ⟨Except.ok tooLongMsg, 0, [], 0, 0⟩
  else
    match t.submit with
    | Except.error e => ⟨Except.error e, 1, [], 0, 0⟩
    | Except.ok resp =>
      if resp.ok = false then
        ⟨Except.error (httpErrMsg resp.status resp.statusText), 1, [], 0, 0⟩
      else
        match extractRid resp.text with
        | none => ⟨Except.error noRidMsg, 1, [], 0, 0⟩
        | some _rid =>
          let p := pollLoop t.check t.checkDur
          match p.outcome with
          | Except.error e => ⟨Except.error e, 1 + p.count, p.bodies, p.count, p.elapsedMs⟩
          | Except.ok _ =>
            match t.result with
            | Except.error e =>
              ⟨Except.error e, 1 + p.count + 1, p.bodies, p.count, p.elapsedMs⟩
            | Except.ok rr =>
              if rr.ok = false then
                ⟨Except.error (fetchFailMsg rr.status), 1 + p.count + 1, p.bodies, p.count, p.elapsedMs⟩
              else
                ⟨Except.ok (formatBlastResults args.program (dbOf args) rr.data),
                 1 + p.count + 1, p.bodies, p.count, p.elapsedMs⟩

/-- Result of the retry wrapper: the returned text, the number of attempts
performed, and the backoff delays slept between consecutive attempts. -/
structure RetryOut where
  text : String
  attempts : Nat
  delays : List Nat
deriving DecidableEq, Repr

/-- Embeds the attempt loop of runOnlineBlastWithRetry: for attempt from 1
to maxRetries, run the body; a returned string ends the loop, a thrown
error is remembered and, when attempts remain, preceded by a sleep of
attempt times 2000 ms; once the loop is over the aggregate error is
returned.  fuel counts the remaining loop iterations. -/
def retryGo (run : Nat → Except String String) :
    Nat → Nat → String → RetryOut
  | 0, _, lastErr => ⟨mkFinalError lastErr, 0, []⟩
  | fuel + 1, attempt, _ =>
    match run attempt with
    | Except.ok s => ⟨s, 1, []⟩
    | Except.error e =>
      if attempt < maxRetries then
        let rest := retryGo run fuel (attempt + 1) e
        ⟨rest.text, rest.attempts + 1, attempt * 2000 :: rest.delays⟩
      else ⟨mkFinalError e, 1, []⟩

/-- Embeds runOnlineBlastWithRetry, abstracted over the per-attempt outcome
of this.runOnlineBlast(args). -/
def runOnlineBlastWithRetry (run : Nat → Except String String) : RetryOut :=
  retryGo run maxRetries 1 ""

/-- Embeds the CallToolRequest handler tail: the result string of the tool
is returned as text, any thrown error is caught and returned as text with
the error marker prefix.  The function is total: no error escapes. -/
def handleCallOutcome (outcome : Except String String) : String :=
  match outcome with
  | Except.ok text => text
  | Except.error msg => "❌ Error: " ++ msg

/-- Embeds the finally block of runLocalBlast: the temporary query file is
unlinked inside a try whose catch ignores the failure, so the body's result
is what the caller sees, whatever the cleanup did. -/
def runWithCleanup (body : Except String String) (cleanup : Except String Unit) :
    Except String String :=
  match cleanup with
  | Except.ok _ => body
  | Except.error _ => body

/-! Spec-modelled asynchronous job client (AsyncJobClient, spec section 4.1).
The repository inlines submit, poll and fetch into a single function and
never exposes a standalone fetch, so the fetch precondition is modelled
from the spec. -/

inductive SpecStatus where
  | Pending
  | Ready
  | Failed
deriving DecidableEq, Repr

structure SpecHandle where
  requestId : String
  status : SpecStatus
deriving DecidableEq, Repr

/-- Modelled from the spec: submit(request) returns a JobHandle created on
successful submission; the per-attempt state machine enters Polling, so a
freshly submitted handle is Pending until a poll reports otherwise. -/
def specSubmit (requestId : String) : SpecHandle :=
  ⟨requestId, SpecStatus.Pending⟩

def fetchPreconditionMsg : String := "FetchError: job is not Ready"

/-- Modelled from the spec: fetch(handle) is valid only when the status is
Ready; on any other status it fails with a precondition error.  The
function is total, so it never crashes. -/
def specFetch (h : SpecHandle) (payload : String) : Except String String :=
  match h.status with
  | SpecStatus.Ready => Except.ok payload
  | _ => Except.error fetchPreconditionMsg

/-! Helper lemmas about substring containment. -/

theorem isPrefixOf_self_append (l suf : List Char) :
    List.isPrefixOf l (l ++ suf) = true := by
  induction l with
  | nil => simp
  | cons c cs ih => simp [List.isPrefixOf, ih]

theorem occursAux_of_isPrefixOf (pat l : List Char)
    (h : List.isPrefixOf pat l = true) : occursAux pat l = true := by
  cases l with
  | nil =>
    cases pat with
    | nil => rfl
    | cons p ps => simp [List.isPrefixOf] at h
  | cons c rest =>
    show (List.isPrefixOf pat (c :: rest) || occursAux pat rest) = true
    rw [h]
    rfl

theorem occursAux_append_left (pat pre l : List Char)
    (h : occursAux pat l = true) : occursAux pat (pre ++ l) = true := by
  induction pre with
  | nil => simp [h]
  | cons c cs ih =>
    show (List.isPrefixOf pat (c :: (cs ++ l)) || occursAux pat (cs ++ l)) = true
    rw [ih]
    simp

theorem containsSubstr_middle (pre s suf : String) :
    containsSubstr (pre ++ s ++ suf) s = true := by
  unfold containsSubstr
  have h2 : occursAux s.data (s.data ++ suf.data) = true :=
    occursAux_of_isPrefixOf _ _ (isPrefixOf_self_append _ _)
  have h3 : occursAux s.data (pre.data ++ (s.data ++ suf.data)) = true :=
    occursAux_append_left _ _ _ h2
  have he : (pre ++ s ++ suf).data = pre.data ++ (s.data ++ suf.data) := by
    simp
  rw [he]
  exact h3

theorem containsSubstr_left_append (pre s : String) :
    containsSubstr (pre ++ s) s = true := by
  unfold containsSubstr
  have h1 : List.isPrefixOf s.data s.data = true := by
    have h0 := isPrefixOf_self_append s.data []
    rw [List.append_nil] at h0
    exact h0
  have h2 : occursAux s.data s.data = true := occursAux_of_isPrefixOf _ _ h1
  have h3 : occursAux s.data (pre.data ++ s.data) = true :=
    occursAux_append_left _ _ _ h2
  have he : (pre ++ s).data = pre.data ++ s.data := by simp
  rw [he]
  exact h3

/-! Helper lemmas about runOnlineBlast. -/

theorem runOnlineBlast_short (args : BlastArgs) (t : Transport)
    (h : (cleanQuery args.query).length < 10) :
    runOnlineBlast args t = ⟨Except.ok tooShortMsg, 0, [], 0, 0⟩ := by
  simp only [runOnlineBlast]
  rw [if_pos h]

theorem runOnlineBlast_long (args : BlastArgs) (t : Transport)
    (h10 : ¬ (cleanQuery args.query).length < 10)
    (h : (cleanQuery args.query).length > 2000) :
    runOnlineBlast args t = ⟨Except.ok tooLongMsg, 0, [], 0, 0⟩ := by
  simp only [runOnlineBlast]
  rw [if_neg h10, if_pos h]

theorem runOnlineBlast_submit_err (args : BlastArgs) (t : Transport) (m : String)
    (h10 : ¬ (cleanQuery args.query).length < 10)
    (h20 : ¬ (cleanQuery args.query).length > 2000)
    (hs : t.submit = Except.error m) :
    runOnlineBlast args t = ⟨Except.error m, 1, [], 0, 0⟩ := by
  simp only [runOnlineBlast]
  rw [if_neg h10, if_neg h20, hs]

/-! Helper lemmas about the retry loop. -/

theorem retryGo_succ_ok (run : Nat → Except String String)
    (fuel attempt : Nat) (last s : String) (h : run attempt = Except.ok s) :
    retryGo run (fuel + 1) attempt last = ⟨s, 1, []⟩ := by
  simp only [retryGo, h]

theorem retryGo_succ_err_lt (run : Nat → Except String String)
    (fuel attempt : Nat) (last e1 : String) (h : run attempt = Except.error e1)
    (hlt : attempt < maxRetries) :
    retryGo run (fuel + 1) attempt last =
      ⟨(retryGo run fuel (attempt + 1) e1).text,
       (retryGo run fuel (attempt + 1) e1).attempts + 1,
       attempt * 2000 :: (retryGo run fuel (attempt + 1) e1).delays⟩ := by
  simp only [retryGo, h]
  rw [if_pos hlt]

theorem retryGo_succ_err_last (run : Nat → Except String String)
    (fuel attempt : Nat) (last e1 : String) (h : run attempt = Except.error e1)
    (hge : ¬ attempt < maxRetries) :
    retryGo run (fuel + 1) attempt last = ⟨mkFinalError e1, 1, []⟩ := by
  simp only [retryGo, h]
  rw [if_neg hge]

theorem retryGo_attempts_le (run : Nat → Except String String) :
    ∀ fuel attempt last, (retryGo run fuel attempt last).attempts ≤ fuel := by
  intro fuel
  induction fuel with
  | zero => intro attempt last; simp [retryGo]
  | succ f ih =>
    intro attempt last
    cases hr : run attempt with
    | ok s =>
      rw [retryGo_succ_ok run f attempt last s hr]
      exact Nat.succ_le_succ (Nat.zero_le f)
    | error e =>
      by_cases h : attempt < maxRetries
      · rw [retryGo_succ_err_lt run f attempt last e hr h]
        exact Nat.succ_le_succ (ih (attempt + 1) e)
      · rw [retryGo_succ_err_last run f attempt last e hr h]
        exact Nat.succ_le_succ (Nat.zero_le f)

theorem retryGo_attempts_pos (run : Nat → Except String String)
    (fuel attempt : Nat) (last : String) :
    1 ≤ (retryGo run (fuel + 1) attempt last).attempts := by
  cases hr : run attempt with
  | ok s =>
    rw [retryGo_succ_ok run fuel attempt last s hr]
  | error e =>
    by_cases h : attempt < maxRetries
    · rw [retryGo_succ_err_lt run fuel attempt last e hr h]
      exact Nat.succ_le_succ (Nat.zero_le _)
    · rw [retryGo_succ_err_last run fuel attempt last e hr h]

theorem retry_first_ok (run : Nat → Except String String) (s : String)
    (h : run 1 = Except.ok s) :
    runOnlineBlastWithRetry run = ⟨s, 1, []⟩ :=
  retryGo_succ_ok run 2 1 "" s h

theorem retry_first_err (run : Nat → Except String String) (m : String)
    (h : run 1 = Except.error m) :
    2 ≤ (runOnlineBlastWithRetry run).attempts := by
  have hstep := retryGo_succ_err_lt run 2 1 "" m h (by decide)
  have hrest : 1 ≤ (retryGo run 2 2 m).attempts := retryGo_attempts_pos run 1 2 m
  have hfull : runOnlineBlastWithRetry run =
      ⟨(retryGo run 2 2 m).text, (retryGo run 2 2 m).attempts + 1,
       1 * 2000 :: (retryGo run 2 2 m).delays⟩ := hstep
  rw [hfull]
  show 2 ≤ (retryGo run 2 2 m).attempts + 1
  omega

theorem retry_all_fail (run : Nat → Except String String) (m1 m2 m3 : String)
    (h1 : run 1 = Except.error m1) (h2 : run 2 = Except.error m2)
    (h3 : run 3 = Except.error m3) :
    runOnlineBlastWithRetry run = ⟨mkFinalError m3, 3, [2000, 4000]⟩ := by
  have s3 : retryGo run 1 3 m2 = ⟨mkFinalError m3, 1, []⟩ :=
    retryGo_succ_err_last run 0 3 m2 m3 h3 (by decide)
  have s2 : retryGo run 2 2 m1 = ⟨mkFinalError m3, 2, [4000]⟩ := by
    have h := retryGo_succ_err_lt run 1 2 m1 m2 h2 (by decide)
    rw [s3] at h
    exact h
  have s1 : retryGo run 3 1 "" = ⟨mkFinalError m3, 3, [2000, 4000]⟩ := by
    have h := retryGo_succ_err_lt run 2 1 "" m1 h1 (by decide)
    rw [s2] at h
    exact h
  exact s1

/-! Helper lemmas about the poll loop. -/

theorem pollLoopFuel_elapsed_le (check : Nat → Except String String)
    (dur : Nat → Nat) (hdur : ∀ k, dur k ≤ 5000) :
    ∀ fuel attempts,
      (pollLoopFuel check dur fuel attempts).elapsedMs ≤ fuel * 10000 := by
  intro fuel
  induction fuel with
  | zero => intro n; simp [pollLoopFuel]
  | succ f ih =>
    intro n
    have hd := hdur (n + 1)
    have hr := ih (n + 1)
    cases hc : check (n + 1) with
    | error e =>
      simp only [pollLoopFuel, hc]
      show 5000 + dur (n + 1) ≤ (f + 1) * 10000
      omega
    | ok body =>
      cases hp : pollClassify body with
      | Ready =>
        simp only [pollLoopFuel, hc, hp]
        show 5000 + dur (n + 1) ≤ (f + 1) * 10000
        omega
      | Failed =>
        simp only [pollLoopFuel, hc, hp]
        show 5000 + dur (n + 1) ≤ (f + 1) * 10000
        omega
      | Pending =>
        simp only [pollLoopFuel, hc, hp]
        by_cases h20 : n + 1 ≥ 20
        · rw [if_pos h20]
          show 5000 + dur (n + 1) ≤ (f + 1) * 10000
          omega
        · rw [if_neg h20]
          show 5000 + dur (n + 1) +
            (pollLoopFuel check dur f (n + 1)).elapsedMs ≤ (f + 1) * 10000
          omega

theorem pollLoopFuel_timeout (check : Nat → Except String String)
    (dur : Nat → Nat) (body : Nat → String)
    (hok : ∀ k, check k = Except.ok (body k))
    (hpend : ∀ k, pollClassify (body k) = JobStatus.Pending) :
    ∀ fuel attempts, attempts + fuel = 20 → 1 ≤ fuel →
      (pollLoopFuel check dur fuel attempts).outcome = Except.error timedOutMsg ∧
      (pollLoopFuel check dur fuel attempts).count = fuel := by
  intro fuel
  induction fuel with
  | zero => intro n h h1; omega
  | succ f ih =>
    intro n hsum _
    simp only [pollLoopFuel, hok (n + 1), hpend (n + 1)]
    by_cases h20 : n + 1 ≥ 20
    · rw [if_pos h20]
      refine ⟨rfl, ?_⟩
      show (1 : Nat) = f + 1
      omega
    · rw [if_neg h20]
      have hf : 1 ≤ f := by omega
      have hrec := ih (n + 1) (by omega) hf
      refine ⟨hrec.1, ?_⟩
      show (pollLoopFuel check dur f (n + 1)).count + 1 = f + 1
      rw [hrec.2]

theorem pollLoopFuel_trace (check : Nat → Except String String) (dur : Nat → Nat) :
    ∀ fuel attempts,
      ((pollLoopFuel check dur fuel attempts).bodies.dropLast.all
        (fun b => pollClassify b == JobStatus.Pending)) = true ∧
      (pollLoopFuel check dur fuel attempts).count ≤ fuel ∧
      (pollLoopFuel check dur fuel attempts).bodies.length ≤
        (pollLoopFuel check dur fuel attempts).count := by
  intro fuel
  induction fuel with
  | zero => intro n; simp [pollLoopFuel]
  | succ f ih =>
    intro n
    cases hc : check (n + 1) with
    | error e => simp [pollLoopFuel, hc]
    | ok body =>
      cases hp : pollClassify body with
      | Ready => simp [pollLoopFuel, hc, hp]
      | Failed => simp [pollLoopFuel, hc, hp]
      | Pending =>
        simp only [pollLoopFuel, hc, hp]
        by_cases h20 : n + 1 ≥ 20
        · rw [if_pos h20]; simp
        · rw [if_neg h20]
          have hrec := ih (n + 1)
          refine ⟨?_, ?_, ?_⟩
          · show ((body :: (pollLoopFuel check dur f (n + 1)).bodies).dropLast.all
              (fun b => pollClassify b == JobStatus.Pending)) = true
            cases hb : (pollLoopFuel check dur f (n + 1)).bodies with
            | nil => simp
            | cons x xs =>
              simp only [List.dropLast_cons₂, List.all_cons, hp]
              have h1 := hrec.1
              rw [hb] at h1
              rw [h1]
              rfl
          · show (pollLoopFuel check dur f (n + 1)).count + 1 ≤ f + 1
            exact Nat.succ_le_succ hrec.2.1
          · show (body :: (pollLoopFuel check dur f (n + 1)).bodies).length ≤
              (pollLoopFuel check dur f (n + 1)).count + 1
            rw [List.length_cons]
            exact Nat.succ_le_succ hrec.2.2

/-! Helper lemmas about the formatters. -/

theorem take_filterMap_length (hits : List Hit) (h : ∀ x ∈ hits, x.hsps ≠ []) :
    ∀ n, ((hits.take n).filterMap
        (fun x => (x.hsps.head?).map (fun hsp => mkEntry x hsp))).length
      = min n hits.length := by
  induction hits with
  | nil => intro n; simp
  | cons x xs ih =>
    intro n
    cases n with
    | zero => simp
    | succ m =>
      have hx : x.hsps ≠ [] := h x (by simp)
      cases hh : x.hsps with
      | nil => exact absurd hh hx
      | cons hsp hs =>
        have hhead : x.hsps.head? = some hsp := by rw [hh]; rfl
        have ihm := ih (fun y hy => h y (by simp [hy])) m
        simp only [List.take_succ_cons, List.filterMap_cons, hhead, Option.map_some',
          List.length_cons]
        rw [ihm]
        omega

theorem mem_take_filterMap (n : Nat) (hits : List Hit) (e : FormattedHit)
    (he : e ∈ (hits.take n).filterMap
        (fun x => (x.hsps.head?).map (fun hsp => mkEntry x hsp))) :
    ∃ x hsp, x ∈ hits ∧ hsp ∈ x.hsps ∧ e = mkEntry x hsp := by
  rw [List.mem_filterMap] at he
  obtain ⟨x, hx, hmap⟩ := he
  cases hl : x.hsps with
  | nil => rw [hl] at hmap; simp at hmap
  | cons a as =>
    rw [hl] at hmap
    simp only [List.head?_cons] at hmap
    have hmap2 : some (mkEntry x a) = some e := hmap
    have he2 : mkEntry x a = e := Option.some.inj hmap2
    refine ⟨x, a, ?_, ?_, ?_⟩
    · exact List.mem_of_mem_take hx
    · rw [hl]; exact List.mem_cons_self a as
    · exact he2.symm

/-! Helper lemmas about cleanQuery on a plain run of letters (used to build
a concrete over-long query). -/

theorem splitLinesAux_no_term (l : List Char) :
    ∀ acc, (∀ c ∈ l, isLineTerm c = false) →
      splitLinesAux l acc = [acc.reverse ++ l] := by
  induction l with
  | nil => intro acc h; simp [splitLinesAux]
  | cons c cs ih =>
    intro acc h
    have hc : isLineTerm c = false := h c (by simp)
    simp only [splitLinesAux, hc, Bool.false_eq_true, if_false]
    rw [ih (c :: acc) (fun d hd => h d (by simp [hd]))]
    simp

theorem filter_nonWs_replicate_A (n : Nat) :
    (List.replicate n 'A').filter (fun c => !(isJsWhitespace c))
      = List.replicate n 'A' := by
  induction n with
  | zero => rfl
  | succ m ih =>
    rw [List.replicate_succ, List.filter_cons]
    have hp : (!(isJsWhitespace 'A')) = true := by decide
    simp [hp, ih]

theorem cleanLine_eq_filter (l : List Char) (h : l.head? ≠ some '>') :
    cleanLine l = l.filter (fun c => !(isJsWhitespace c)) := by
  unfold cleanLine
  split
  · simp at h
  · rfl

theorem cleanQuery_replicate_A (n : Nat) :
    cleanQuery (String.mk (List.replicate n 'A'))
      = String.mk (List.replicate n 'A') := by
  unfold cleanQuery
  have hterm : ∀ c ∈ List.replicate n 'A', isLineTerm c = false := by
    intro c hc
    have hcA := List.eq_of_mem_replicate hc
    rw [hcA]
    decide
  have hsplit : splitLinesAux (String.mk (List.replicate n 'A')).data []
      = [List.nil.reverse ++ List.replicate n 'A'] :=
    splitLinesAux_no_term _ [] hterm
  rw [hsplit]
  have hhead : (List.replicate n 'A').head? ≠ some '>' := by
    cases n with
    | zero => simp
    | succ m =>
      rw [List.replicate_succ]
      simp only [List.head?_cons]
      intro hcontra
      have : 'A' = '>' := Option.some.inj hcontra
      exact absurd this (by decide)
  simp only [List.reverse_nil, List.nil_append, List.map_cons, List.map_nil,
    cleanLine_eq_filter _ hhead, filter_nonWs_replicate_A]
  simp

theorem cleanQuery_bigA_length :
    2000 < (cleanQuery (String.mk (List.replicate 2001 'A'))).length := by
  rw [cleanQuery_replicate_A]
  show 2000 < (List.replicate 2001 'A').length
  rw [List.length_replicate]
  omega

/-! Concrete fixtures for witnesses and counterexamples. -/

/-- A transport whose submission always throws. -/
def demoTransport : Transport :=
  ⟨Except.error "boom", fun _ => Except.ok "", fun _ => 0, Except.error "net"⟩

def demoTransports : Nat → Transport := fun _ => demoTransport

def okQueryArgs : BlastArgs := ⟨"ACGTACGTACGT", "blastn", none, 5⟩

def shortQueryArgs : BlastArgs := ⟨"ACGT", "blastn", none, 5⟩

def longQueryArgs : BlastArgs := ⟨String.mk (List.replicate 2001 'A'), "blastn", none, 5⟩

/-- A well-formed hit record with one hsp. -/
def demoHit : Hit :=
  ⟨[⟨some "NM_000207", some "Homo sapiens insulin"⟩], [⟨95, 100, "2e-30", "180", 1, 100⟩]⟩

def sixHits : List Hit := List.replicate 6 demoHit

/-! The claims. -/

/-- C1: with maxAttempts fixed at 3 and a submission that always fails
transiently (throws), the retry wrapper performs exactly 3 attempts, each
attempt making exactly one submission network call, sleeping the strictly
increasing backoff delays of attempt times 2000 ms between consecutive
attempts (2 s then 4 s, none after the last attempt), and returns the
aggregate failure text, which contains the message of the last failure. -/
theorem C1_retry_exhaustion (args : BlastArgs) (t : Nat → Transport) (e : Nat → String)
    (h10 : 10 ≤ (cleanQuery args.query).length)
    (h20 : (cleanQuery args.query).length ≤ 2000)
    (hsub : ∀ k, (t k).submit = Except.error (e k)) :
    runOnlineBlastWithRetry (fun k => (runOnlineBlast args (t k)).outcome)
        = ⟨mkFinalError (e 3), 3, [1 * 2000, 2 * 2000]⟩
      ∧ (∀ k, (runOnlineBlast args (t k)).networkCalls = 1)
      ∧ 1 * 2000 < 2 * 2000
      ∧ containsSubstr (mkFinalError (e 3)) (e 3) = true := by
  have hrun : ∀ k, runOnlineBlast args (t k) = ⟨Except.error (e k), 1, [], 0, 0⟩ :=
    fun k => runOnlineBlast_submit_err args (t k) (e k) (by omega) (by omega) (hsub k)
  refine ⟨?_, fun k => by rw [hrun k], by omega, ?_⟩
  · exact retry_all_fail _ (e 1) (e 2) (e 3)
      (by simp [hrun]) (by simp [hrun]) (by simp [hrun])
  · exact containsSubstr_middle finalErrorPre (e 3) finalErrorSuf

theorem C1_retry_exhaustion_witness :
    runOnlineBlastWithRetry (fun k => (runOnlineBlast okQueryArgs (demoTransports k)).outcome)
        = ⟨mkFinalError "boom", 3, [1 * 2000, 2 * 2000]⟩
      ∧ (runOnlineBlast okQueryArgs (demoTransports 1)).networkCalls = 1
      ∧ containsSubstr (mkFinalError "boom") "boom" = true := by
  have h := C1_retry_exhaustion okQueryArgs demoTransports (fun _ => "boom")
    (by decide) (by decide) (fun _ => rfl)
  exact ⟨h.1, h.2.1 1, h.2.2.2⟩

/-- C2 counterexample: the claim says an unrecognized status maps to a poll
error, but the code classifies any body without the READY and FAILED
markers — recognized waiting status or free-form garbage alike — as
Pending and simply keeps polling. -/
theorem C2_counterexample :
    pollClassify "Status=UNKNOWN" = JobStatus.Pending := by decide

/-- C2 (amended): poll reports Ready exactly when the body contains the
READY marker; it reports Failed exactly when the body lacks the READY
marker and contains the FAILED marker; every other body — any other
recognized status as well as an unrecognized one — is treated as Pending
and polling continues (no distinct poll-error outcome exists). -/
theorem C2_amended (body : String) :
    (pollClassify body = JobStatus.Ready ↔ containsSubstr body "Status=READY" = true)
    ∧ (pollClassify body = JobStatus.Failed ↔
        (containsSubstr body "Status=READY" = false
          ∧ containsSubstr body "Status=FAILED" = true))
    ∧ (pollClassify body = JobStatus.Pending ↔
        (containsSubstr body "Status=READY" = false
          ∧ containsSubstr body "Status=FAILED" = false)) := by
  cases h1 : containsSubstr body "Status=READY" with
  | true => simp [pollClassify, h1]
  | false =>
    cases h2 : containsSubstr body "Status=FAILED" with
    | true => simp [pollClassify, h1, h2]
    | false => simp [pollClassify, h1, h2]

/-- C3 counterexample: a well-formed payload of six parsed hit records with
a request limit of 10 yields five formatted entries — the number of hits
capped at the hard-coded display limit 5 — not six as the claim's cap at
resultLimit would require. -/
theorem C3_counterexample :
    (formatEntriesStable sixHits).length = 5
    ∧ ¬ (formatEntriesStable sixHits).length = min sixHits.length 10 := by decide

/-- C3 (amended): on a Ready handle with a well-formed payload (every hit
has at least one hsp), the emitted hit count equals the number of parsed
hit records capped at the fixed display limit — 5 in the stable server, 10
in the plain online server — independent of the request's resultLimit, and
every emitted entry carries the identifier, the score and the significance
value of a parsed hit. -/
theorem C3_amended (hits : List Hit) (h : ∀ x ∈ hits, x.hsps ≠ []) :
    (formatEntriesStable hits).length = min 5 hits.length
    ∧ (formatEntriesOnline hits).length = min 10 hits.length
    ∧ ∀ e ∈ formatEntriesStable hits,
        ∃ x hsp, x ∈ hits ∧ hsp ∈ x.hsps ∧ e = mkEntry x hsp := by
  refine ⟨take_filterMap_length hits h 5, take_filterMap_length hits h 10, ?_⟩
  intro e he
  exact mem_take_filterMap 5 hits e he

theorem C3_amended_witness :
    (formatEntriesStable [demoHit]).length = min 5 [demoHit].length
    ∧ (formatEntriesOnline [demoHit]).length = min 10 [demoHit].length := by
  have h := C3_amended [demoHit] (by decide)
  exact ⟨h.1, h.2.1⟩

/-- C4: only thrown step failures (transient network errors) trigger a
retry, and at most up to the fixed three-attempt ceiling; a validation
rejection (query too short or too long) and a malformed-result message are
returned rather than thrown, so the orchestrator hands their message back
after a single attempt with no backoff sleep. -/
theorem C4_only_transient_retried (run : Nat → Except String String)
    (s m : String) (args : BlastArgs) (t : Transport) (prog db : String) :
    ((runOnlineBlastWithRetry run).attempts ≤ 3)
    ∧ (run 1 = Except.ok s → runOnlineBlastWithRetry run = ⟨s, 1, []⟩)
    ∧ (run 1 = Except.error m → 2 ≤ (runOnlineBlastWithRetry run).attempts)
    ∧ ((cleanQuery args.query).length < 10 →
        runOnlineBlast args t = ⟨Except.ok tooShortMsg, 0, [], 0, 0⟩)
    ∧ ((cleanQuery args.query).length > 2000 →
        runOnlineBlast args t = ⟨Except.ok tooLongMsg, 0, [], 0, 0⟩)
    ∧ formatBlastResults prog db ⟨[]⟩ = invalidFormatMsg := by
  refine ⟨retryGo_attempts_le run 3 1 "", retry_first_ok run s, retry_first_err run m,
    runOnlineBlast_short args t, ?_, rfl⟩
  intro hlong
  exact runOnlineBlast_long args t (by omega) hlong

theorem C4_witness :
    runOnlineBlastWithRetry (fun _ => Except.ok "done") = ⟨"done", 1, []⟩
    ∧ 2 ≤ (runOnlineBlastWithRetry (fun _ => Except.error "net")).attempts
    ∧ runOnlineBlast shortQueryArgs demoTransport = ⟨Except.ok tooShortMsg, 0, [], 0, 0⟩
    ∧ runOnlineBlast longQueryArgs demoTransport = ⟨Except.ok tooLongMsg, 0, [], 0, 0⟩
    ∧ formatBlastResults "blastn" "nt" ⟨[]⟩ = invalidFormatMsg := by
  refine ⟨?_, ?_, ?_, ?_, ?_⟩
  · exact (C4_only_transient_retried (fun _ => Except.ok "done") "done" "x"
      shortQueryArgs demoTransport "blastn" "nt").2.1 rfl
  · exact (C4_only_transient_retried (fun _ => Except.error "net") "s" "net"
      shortQueryArgs demoTransport "blastn" "nt").2.2.1 rfl
  · exact (C4_only_transient_retried (fun _ => Except.ok "") "" ""
      shortQueryArgs demoTransport "blastn" "nt").2.2.2.1 (by decide)
  · exact (C4_only_transient_retried (fun _ => Except.ok "") "" ""
      longQueryArgs demoTransport "blastn" "nt").2.2.2.2.1 cleanQuery_bigA_length
  · exact (C4_only_transient_retried (fun _ => Except.ok "") "" ""
      longQueryArgs demoTransport "blastn" "nt").2.2.2.2.2

/-- C5: the poll loop's elapsed wall-clock time is bounded by the one fixed
constant 200000 ms on every execution — 20 iterations of a 5000 ms sleep
plus a status fetch bounded by its 5000 ms timeout — and when no poll ever
reports READY or FAILED the loop terminates with the timeout error after
exactly 20 polls. -/
theorem C5_poll_ceiling (check : Nat → Except String String) (dur : Nat → Nat)
    (body : Nat → String) (hdur : ∀ k, dur k ≤ 5000) :
    (pollLoop check dur).elapsedMs ≤ 200000
    ∧ ((∀ k, check k = Except.ok (body k)) →
        (∀ k, pollClassify (body k) = JobStatus.Pending) →
        (pollLoop check dur).outcome = Except.error timedOutMsg
        ∧ (pollLoop check dur).count = 20) := by
  constructor
  · exact pollLoopFuel_elapsed_le check dur hdur 20 0
  · intro hok hpend
    exact pollLoopFuel_timeout check dur body hok hpend 20 0 (by omega) (by omega)

theorem C5_witness :
    (pollLoop (fun _ => Except.ok "Status=WAITING") (fun _ => 0)).elapsedMs ≤ 200000
    ∧ (pollLoop (fun _ => Except.ok "Status=WAITING") (fun _ => 0)).outcome
        = Except.error timedOutMsg
    ∧ (pollLoop (fun _ => Except.ok "Status=WAITING") (fun _ => 0)).count = 20 := by
  have h := C5_poll_ceiling (fun _ => Except.ok "Status=WAITING") (fun _ => 0)
    (fun _ => "Status=WAITING") (fun _ => Nat.zero_le 5000)
  have h2 := h.2 (fun _ => rfl)
    (fun _ => (by decide : pollClassify "Status=WAITING" = JobStatus.Pending))
  exact ⟨h.1, h2.1, h2.2⟩

/-- C6: a payload whose cleaned sequence (FASTA header lines and whitespace
removed) is shorter than 10 characters is rejected with the query-too-short
message before submission, with no network call made. -/
theorem C6_short_query (args : BlastArgs) (t : Transport)
    (h : (cleanQuery args.query).length < 10) :
    runOnlineBlast args t = ⟨Except.ok tooShortMsg, 0, [], 0, 0⟩
    ∧ (runOnlineBlast args t).networkCalls = 0 := by
  have h1 := runOnlineBlast_short args t h
  exact ⟨h1, by rw [h1]⟩

theorem C6_witness :
    runOnlineBlast shortQueryArgs demoTransport = ⟨Except.ok tooShortMsg, 0, [], 0, 0⟩
    ∧ (runOnlineBlast shortQueryArgs demoTransport).networkCalls = 0 :=
  C6_short_query shortQueryArgs demoTransport (by decide)

/-- C7: in every execution of the poll loop every received status body
except possibly the final one classifies as Pending — once a poll reports
Ready or Failed the loop stops, so the status never transitions again —
and the polls are strictly sequential: at most 20 requests are issued, one
per iteration, each response consumed before the next request, with never
more received bodies than issued requests. -/
theorem C7_terminal_status (check : Nat → Except String String) (dur : Nat → Nat) :
    ((pollLoop check dur).bodies.dropLast.all
      (fun b => pollClassify b == JobStatus.Pending)) = true
    ∧ (pollLoop check dur).count ≤ 20
    ∧ (pollLoop check dur).bodies.length ≤ (pollLoop check dur).count :=
  pollLoopFuel_trace check dur 20 0

/-- C8: every error raised while handling a tool call surfaces to the
caller as a human-readable text message containing the error's own message
— the handler maps both outcomes to text and never rethrows — with the
single exception of the temporary query file cleanup, whose own failure is
ignored and leaves the reported result unchanged. -/
theorem C8_errors_surface (msg s : String) (body : Except String String)
    (c c' : Except String Unit) :
    handleCallOutcome (Except.error msg) = "❌ Error: " ++ msg
    ∧ containsSubstr (handleCallOutcome (Except.error msg)) msg = true
    ∧ handleCallOutcome (Except.ok s) = s
    ∧ runWithCleanup body c = runWithCleanup body c'
    ∧ runWithCleanup body c = body := by
  refine ⟨rfl, ?_, rfl, ?_, ?_⟩
  · exact containsSubstr_left_append "❌ Error: " msg
  · cases c <;> cases c' <;> rfl
  · cases c <;> rfl

/-- C9: fetching immediately after submission, before any poll has
reported Ready, fails with the fetch precondition error, and being a total
function it never crashes.  (Modelled from the spec: the source inlines
submit, poll and fetch into one function and exposes no standalone fetch
operation.) -/
theorem C9_fetch_before_ready (requestId payload : String) :
    specFetch (specSubmit requestId) payload = Except.error fetchPreconditionMsg := rfl

/-- C10: a blast_online request whose cleaned sequence exceeds 2000
characters is rejected with the query-too-long message before any network
call, and the rejection is a returned message, not a thrown error, so the
retry wrapper hands it back after a single attempt with no backoff. -/
theorem C10_long_query (args : BlastArgs) (t : Transport)
    (h : (cleanQuery args.query).length > 2000) :
    runOnlineBlast args t = ⟨Except.ok tooLongMsg, 0, [], 0, 0⟩
    ∧ (runOnlineBlast args t).networkCalls = 0
    ∧ runOnlineBlastWithRetry (fun _ => (runOnlineBlast args t).outcome)
        = ⟨tooLongMsg, 1, []⟩ := by
  have h1 := runOnlineBlast_long args t (by omega) h
  refine ⟨h1, by rw [h1], ?_⟩
  apply retry_first_ok
  show (runOnlineBlast args t).outcome = Except.ok tooLongMsg
  rw [h1]

theorem C10_witness :
    runOnlineBlast longQueryArgs demoTransport = ⟨Except.ok tooLongMsg, 0, [], 0, 0⟩
    ∧ (runOnlineBlast longQueryArgs demoTransport).networkCalls = 0
    ∧ runOnlineBlastWithRetry
        (fun _ => (runOnlineBlast longQueryArgs demoTransport).outcome)
        = ⟨tooLongMsg, 1, []⟩ :=
  C10_long_query longQueryArgs demoTransport cleanQuery_bigA_length

end NCBIBlast
